import Mathlib

/-!
Verification of the lidar measurement module (`mmctools/measurements/lidar.py`).

The development shallowly embeds the module's functions:

* `calc_xyz` — polar/spherical to Cartesian coordinate transform,
  including its index-level / constant-argument fallback logic;
* `estimate_mean_wind` — no-intercept least-squares arc fit, with the
  underlying solver abstracted as a function parameter;
* `LidarData._check_data` — scan-type classification and range-gate
  bookkeeping;
* `LidarData.get_range` — range-gate lookup with half-open gate
  intervals;
* the `LidarData.r` / `az` / `el` accessors over pandas MultiIndex
  levels;
* the `GalionCornellPEIWEE` constructor's post-construction filters
  (`_filter_by_range`, `_filter_by_intensity`).

Real-valued code is embedded over `ℝ` (trigonometry), dataframe keys and
payloads over `ℚ` so that lookups and filters are executable.  A missing
value (NaN payload) is `Option.none`.  Python exceptions are modelled by
`Except`: an `AssertionError` or raised error becomes `Except.error`.
-/

/-- `np.radians`: degrees to radians. -/
noncomputable def radians (d : ℝ) : ℝ := d * Real.pi / 180

/-- `np.degrees`: radians to degrees. -/
noncomputable def degrees (x : ℝ) : ℝ := x * 180 / Real.pi

/-- `np.arctan2 y x`: four-quadrant arctangent, standard definition. -/
noncomputable def atan2 (y x : ℝ) : ℝ :=
  if 0 < x then Real.arctan (y / x)
  else if 0 < y then Real.pi / 2 - Real.arctan (x / y)
  else if y < 0 then -(Real.pi / 2) - Real.arctan (x / y)
  else if x < 0 then Real.pi
  else 0

/-- Python exception classes relevant to `calc_xyz`.  In CPython,
`np.radians (90 - None)` raises a `TypeError` (unsupported operand). -/
inductive PyErr where
  | assertionError (msg : String)
  | typeError
deriving DecidableEq

/-- The index levels visible to `calc_xyz` at one scan point:
`df.index.get_level_values(name)` succeeds iff the level is present.
The numpy computation is pointwise over the table, so one point is
modelled; each field is `some` when that index level exists. -/
structure ScanDF where
  rng : Option ℝ
  azimuth : Option ℝ
  elevation : Option ℝ

/-- Shallow embedding of `calc_xyz` (lidar.py lines 11-50), pointwise.
Arguments mirror the Python signature: `range?`/`azimuth?` are the
optional constants, `elevation` defaults to `0.0`.  Note that the
`except KeyError` branch for azimuth (line 36) tests `range is not None`
— exactly as the source does — before using the `azimuth` argument; if
that argument is `None`, evaluating `90 - azimuth` raises `TypeError`. -/
noncomputable def calc_xyz (df : ScanDF) (range? : Option ℝ) (azimuth? : Option ℝ)
    (elevation : ℝ) (small_elevation_angles : Bool) : Except PyErr (ℝ × ℝ × ℝ) := do
  let r ← match df.rng with
    | some v => Except.ok v
    | none =>
      match range? with
      | some v => Except.ok v
      | none => Except.error (PyErr.assertionError "need to specify constant value for range")
  let az ← match df.azimuth with
    | some v => Except.ok (radians (90 - v))
    | none =>
      match range? with
      | none => Except.error (PyErr.assertionError "need to specify constant value for azimuth")
      | some _ =>
        match azimuth? with
        | some v => Except.ok (radians (90 - v))
        | none => Except.error PyErr.typeError
  let el := match df.elevation with
    | some v => radians v
    | none => radians elevation
  if small_elevation_angles then
    Except.ok (r * Real.cos az, r * Real.sin az, r * el)
  else
    Except.ok (r * Real.cos az * Real.cos el, r * Real.sin az * Real.cos el, r * Real.sin el)

/-- **C2.**  For every range `r`, azimuth `az` (compass degrees) and
elevation `el` (degrees), `calc_xyz` maps `az` to the math angle
`radians (90 - az)` and `el` to radians, and returns exactly
`(r·cos az', r·sin az', r·el')` in small-elevation-angle mode and
`(r·cos az'·cos el', r·sin az'·cos el', r·sin el')` otherwise — both
when the three coordinates come from the table's index levels and when
range and azimuth are supplied as constants. -/
theorem calc_xyz_formulas (r az el : ℝ) (range? azimuth? : Option ℝ) (elc : ℝ) :
    calc_xyz ⟨some r, some az, some el⟩ range? azimuth? elc true =
      Except.ok (r * Real.cos (radians (90 - az)), r * Real.sin (radians (90 - az)),
        r * radians el) ∧
    calc_xyz ⟨some r, some az, some el⟩ range? azimuth? elc false =
      Except.ok (r * Real.cos (radians (90 - az)) * Real.cos (radians el),
        r * Real.sin (radians (90 - az)) * Real.cos (radians el),
        r * Real.sin (radians el)) ∧
    calc_xyz ⟨none, none, none⟩ (some r) (some az) el true =
      Except.ok (r * Real.cos (radians (90 - az)), r * Real.sin (radians (90 - az)),
        r * radians el) ∧
    calc_xyz ⟨none, none, none⟩ (some r) (some az) el false =
      Except.ok (r * Real.cos (radians (90 - az)) * Real.cos (radians el),
        r * Real.sin (radians (90 - az)) * Real.cos (radians el),
        r * Real.sin (radians el)) :=
  ⟨rfl, rfl, rfl, rfl⟩

/-- **C5.**  The azimuth fallback of `calc_xyz` is mis-guarded: line 36
asserts `range is not None` instead of `azimuth is not None`.  On an
RHI-style table (range and elevation levels, no azimuth level) with the
azimuth constant omitted: if the `range` argument is supplied the assert
passes and `90 - None` raises `TypeError` (not the assertion the claim
describes); conversely, with `azimuth = 30` supplied but the `range`
argument left `None`, the azimuth `AssertionError` fires spuriously. -/
theorem calc_xyz_azimuth_check_bug :
    calc_xyz ⟨some 100, none, some 5⟩ (some 50) none 0 false =
      Except.error PyErr.typeError ∧
    calc_xyz ⟨some 100, none, some 5⟩ none (some 30) 0 false =
      Except.error (PyErr.assertionError "need to specify constant value for azimuth") :=
  ⟨rfl, rfl⟩

/-- Shallow embedding of `estimate_mean_wind` (lidar.py lines 53-88).
The source asserts all per-row elevations are equal (line 71) or takes
a supplied scalar, so the model takes the single shared elevation `el`
(degrees).  `rows` pairs each observation's azimuth (degrees) with its
radial velocity, `none` for a missing (NaN) value.  The least-squares
solver (`sklearn` `LinearRegression(fit_intercept=False).fit`) is
abstracted as the parameter `fit`, which receives exactly the rows the
source hands it: coefficient pairs `(cos el·sin az, cos el·cos az)`
zipped with the observations, restricted to non-missing observations
(lines 76-81) whenever any observation is missing. -/
noncomputable def estimate_mean_wind (fit : List ((ℝ × ℝ) × ℝ) → ℝ × ℝ)
    (el : ℝ) (rows : List (ℝ × Option ℝ)) : ℝ × ℝ :=
  let elr := radians el
  let comps := rows.map fun p =>
    ((Real.cos elr * Real.sin (radians p.1), Real.cos elr * Real.cos (radians p.1)), p.2)
  let kept := if rows.any fun p => p.2.isNone then comps.filter fun t => t.2.isSome else comps
  let data := kept.map fun t => (t.1, t.2.getD 0)
  let UV := fit data
  (Real.sqrt (UV.1 ^ 2 + UV.2 ^ 2), 180 + degrees (atan2 UV.1 UV.2))

/-- Filtering commutes with tagging each row by a function of its first
component: the mask depends only on the second component, which the
tagging preserves. -/
theorem filter_isSome_map_comps {α β : Type} (g : α → β) :
    ∀ l : List (α × Option ℝ),
      ((l.map fun p => (g p.1, p.2)).filter fun t => t.2.isSome) =
        (l.filter fun p => p.2.isSome).map fun p => (g p.1, p.2) := by
  intro l
  induction l with
  | nil => rfl
  | cons x xs ih =>
    by_cases hx : x.2.isSome
    · simp [List.filter_cons, hx, ih]
    · simp only [Bool.not_eq_true] at hx
      simp [List.filter_cons, hx, ih]

/-- A list none of whose rows is missing is unchanged by the
non-missing filter. -/
theorem filter_isSome_of_no_missing {α : Type} :
    ∀ l : List (α × Option ℝ), (l.any fun p => p.2.isNone) = false →
      (l.filter fun p => p.2.isSome) = l := by
  intro l
  induction l with
  | nil => exact fun _ => rfl
  | cons x xs ih =>
    intro h
    simp only [List.any_cons, Bool.or_eq_false_iff] at h
    have hx : x.2.isSome = true := by
      cases hv : x.2 with
      | none => rw [hv] at h; simp at h
      | some v => rfl
    simp [List.filter_cons, hx, ih h.2]

/-- After dropping missing rows, no missing rows remain. -/
theorem no_missing_after_filter {α : Type} :
    ∀ l : List (α × Option ℝ),
      ((l.filter fun p => p.2.isSome).any fun p => p.2.isNone) = false := by
  intro l
  induction l with
  | nil => rfl
  | cons x xs ih =>
    cases hv : x.2 with
    | none => simpa [List.filter_cons, hv] using ih
    | some v => simpa [List.filter_cons, hv] using ih

/-- **C3.**  `estimate_mean_wind` on an arc with missing radial
velocities returns the same `(Vmag, beta)` as on the arc with the
missing rows deleted outright: missing observations are filtered out of
the observation vector and both coefficient rows before the
no-intercept least-squares fit, for every underlying solver. -/
theorem estimate_mean_wind_missing_filter
    (fit : List ((ℝ × ℝ) × ℝ) → ℝ × ℝ) (el : ℝ) (rows : List (ℝ × Option ℝ)) :
    estimate_mean_wind fit el rows =
      estimate_mean_wind fit el (rows.filter fun p => p.2.isSome) := by
  unfold estimate_mean_wind
  rw [no_missing_after_filter]
  by_cases h : (rows.any fun p => p.2.isNone) = true
  · simp only [h, if_true, Bool.false_eq_true, if_false]
    rw [filter_isSome_map_comps
      (fun x => (Real.cos (radians el) * Real.sin (radians x),
        Real.cos (radians el) * Real.cos (radians x))) rows]
  · simp only [Bool.not_eq_true] at h
    rw [h, filter_isSome_of_no_missing rows h]

/-- A degenerate arc: two observations at the identical azimuth 45°. -/
noncomputable def degArc : List (ℝ × Option ℝ) := [(45, some 1), (45, some 2)]

/-- The rank-deficient system `estimate_mean_wind` builds from `degArc`
at elevation 0: both coefficient rows are identical. -/
noncomputable def degSystem : List ((ℝ × ℝ) × ℝ) :=
  [((Real.sin (radians 45), Real.cos (radians 45)), 1),
   ((Real.sin (radians 45), Real.cos (radians 45)), 2)]

/-- **C6 (counterexample).**  On an identical-azimuth arc the output of
`estimate_mean_wind` is whatever the underlying least-squares solver
produces — two solvers give two different answers — so the function
does not exhibit a solver-independent defined behavior (in particular
no explicit failure) on degenerate arcs. -/
theorem estimate_mean_wind_solver_dependent :
    estimate_mean_wind (fun _ => (1, 0)) 0 degArc ≠
      estimate_mean_wind (fun _ => (0, 1)) 0 degArc := by
  intro h
  have h2 := congrArg Prod.snd h
  have e1 : (estimate_mean_wind (fun _ => (1, 0)) 0 degArc).2 =
      180 + degrees (atan2 1 0) := rfl
  have e2 : (estimate_mean_wind (fun _ => (0, 1)) 0 degArc).2 =
      180 + degrees (atan2 0 1) := rfl
  rw [e1, e2] at h2
  have a1 : atan2 1 0 = Real.pi / 2 := by
    unfold atan2
    rw [if_neg (by norm_num), if_pos (by norm_num)]
    norm_num
  have a2 : atan2 0 1 = 0 := by
    unfold atan2
    rw [if_pos (by norm_num)]
    simp
  rw [a1, a2] at h2
  unfold degrees at h2
  have hpi := Real.pi_ne_zero
  field_simp at h2

/-- **C6 (amended).**  `estimate_mean_wind` applies no degeneracy
guard: for the identical-azimuth arc `degArc` it hands the underlying
solver the rank-deficient system `degSystem` unchanged and
post-processes whatever `(U0, V0)` the solver returns, for every
solver. -/
theorem estimate_mean_wind_no_degeneracy_guard
    (fit : List ((ℝ × ℝ) × ℝ) → ℝ × ℝ) :
    estimate_mean_wind fit 0 degArc =
      (Real.sqrt ((fit degSystem).1 ^ 2 + (fit degSystem).2 ^ 2),
       180 + degrees (atan2 (fit degSystem).1 (fit degSystem).2)) := by
  unfold estimate_mean_wind degArc
  have hsys : ([((45:ℝ), some (1:ℝ)), (45, some 2)].map fun p =>
      ((Real.cos (radians 0) * Real.sin (radians p.1),
        Real.cos (radians 0) * Real.cos (radians p.1)), p.2)).map
        (fun t => (t.1, t.2.getD 0)) = degSystem := by
    unfold degSystem
    simp [radians]
  simp only [List.any_cons, List.any_nil, Option.isNone_some, Bool.or_self,
    Bool.false_eq_true, if_false]
  rw [hsys]

/-- A row of the container's table: the full `(range, azimuth,
elevation)` key together with its payload (`none` = NaN). -/
abbrev LRow : Type := (ℚ × ℚ × ℚ) × Option ℚ

/-- The state a constructed `LidarData` holds: its table `df`, the
first index level `rarray = df.index.levels[0]` (the range gate
centers), and the quantities `_check_data` derives from it. -/
structure LidarState where
  df : List LRow
  rarray : List ℚ
  range_gate_size : ℚ
  rmin : ℚ
  rmax : ℚ

/-- Shallow embedding of `LidarData.get_range` (lidar.py lines
153-181).  `np.where(r < right_edges)[0][0]` picks the first index
whose right edge exceeds `r` (raising `IndexError` when there is
none); the model selects that first element directly with
`List.find?`, since the source uses the index itself only in a
verbose print.  `df.loc[(rsel, slice(None), slice(None)), :]` keeps
every row whose range key equals the selected gate center, with the
full key retained. -/
def LidarState.get_range (st : LidarState) (r : ℚ) : Except String (List LRow) :=
  if r < st.rmin then Except.error "Invalid range, r < rmin"
  else if st.rmax ≤ r then Except.error "Invalid range, r >= rmax"
  else if r ∈ st.rarray then
    Except.ok (st.df.filter fun row => decide (row.1.1 = r))
  else
    match st.rarray.find? fun c => decide (r < c + st.range_gate_size / 2) with
    | none => Except.error "IndexError: index 0 is out of bounds"
    | some rsel =>
      if rsel - st.range_gate_size / 2 ≤ r ∧ r < rsel + st.range_gate_size / 2 then
        Except.ok (st.df.filter fun row => decide (row.1.1 = rsel))
      else Except.error "AssertionError: r is not between r0 and r1"

/-- `n` uniformly spaced gate centers starting at `a` with spacing
`d`. -/
def gates (a d : ℚ) : ℕ → List ℚ
  | 0 => []
  | n + 1 => a :: gates (a + d) d n

/-- A well-formed container per the data model (§3 of the spec): at
least two gate centers, uniformly spaced by the positive gate size
(the spec invariant "range gate spacing is uniform"), with
`rmin`/`rmax` derived from the extreme centers exactly as
`_check_data` (lines 126-127) computes them. -/
def LidarState.wellFormed (st : LidarState) : Prop :=
  0 < st.range_gate_size ∧
  (∃ a n, 2 ≤ n ∧ st.rarray = gates a st.range_gate_size n) ∧
  st.rmin = st.rarray.headD 0 - st.range_gate_size / 2 ∧
  st.rmax = st.rarray.getLastD 0 + st.range_gate_size / 2

theorem mem_gates {d c : ℚ} :
    ∀ {n : ℕ} {a : ℚ}, c ∈ gates a d n → ∃ i : ℕ, i < n ∧ c = a + i * d := by
  intro n
  induction n with
  | zero => intro a hc; simp [gates] at hc
  | succ m ih =>
    intro a hc
    rcases (by simpa [gates] using hc : c = a ∨ c ∈ gates (a + d) d m) with h | h
    · exact ⟨0, by omega, by push_cast; linarith⟩
    · obtain ⟨i, hi, hci⟩ := ih h
      exact ⟨i + 1, by omega, by push_cast at hci ⊢; linarith⟩

theorem gates_getLastD (d : ℚ) :
    ∀ (n : ℕ) (a x : ℚ), (gates a d (n + 1)).getLastD x = a + n * d := by
  intro n
  induction n with
  | zero => intro a x; simp [gates]
  | succ m ih =>
    intro a x
    have hstep : gates a d (m + 2) = a :: gates (a + d) d (m + 1) := rfl
    rw [hstep, List.getLastD_cons, ih (a + d) a]
    push_cast
    ring

/-- On a uniform gate array covering `r`, the first gate whose right
edge exceeds `r` exists, is found by the ascending scan, contains `r`
in its half-open interval, and is the only gate that does. -/
theorem gates_find_spec (d r : ℚ) (hd : 0 < d) :
    ∀ (n : ℕ) (a : ℚ), a - d / 2 ≤ r → r < a + n * d + d / 2 →
      ∃ c, (gates a d (n + 1)).find? (fun c => decide (r < c + d / 2)) = some c ∧
        c ∈ gates a d (n + 1) ∧ c - d / 2 ≤ r ∧ r < c + d / 2 ∧
        ∀ c' ∈ gates a d (n + 1), c' - d / 2 ≤ r → r < c' + d / 2 → c' = c := by
  intro n
  induction n with
  | zero =>
    intro a h1 h2
    have hpa : r < a + d / 2 := by push_cast at h2; linarith
    refine ⟨a, ?_, by simp [gates], h1, hpa, ?_⟩
    · simp [gates, List.find?, hpa]
    · intro c' hc' _ _
      simpa [gates] using hc'
  | succ m ih =>
    intro a h1 h2
    have hmd : ((m : ℚ) + 1) * d = (m : ℚ) * d + d := by ring
    push_cast at h2
    by_cases hr : r < a + d / 2
    · refine ⟨a, ?_, by simp [gates], h1, hr, ?_⟩
      · simp [gates, List.find?, hr]
      · intro c' hc' hcl hcr
        rcases (by simpa [gates] using hc' :
            c' = a ∨ c' ∈ gates (a + d) d (m + 1)) with h | h
        · exact h
        · exfalso
          obtain ⟨i, _, rfl⟩ := mem_gates h
          have hid : (0 : ℚ) ≤ (i : ℚ) * d := by positivity
          linarith
    · push_neg at hr
      have h1' : (a + d) - d / 2 ≤ r := by linarith
      have h2' : r < (a + d) + m * d + d / 2 := by linarith
      obtain ⟨c, hfind, hmem, hcl, hcr, huniq⟩ := ih (a + d) h1' h2'
      have hpa : ¬ r < a + d / 2 := by linarith
      have hstep : gates a d (m + 2) = a :: gates (a + d) d (m + 1) := rfl
      refine ⟨c, ?_, ?_, hcl, hcr, ?_⟩
      · rw [hstep, List.find?_cons_of_neg _ (by simpa using hpa)]
        exact hfind
      · rw [hstep]
        exact List.mem_cons_of_mem a hmem
      · intro c' hc' hcl' hcr'
        rcases (by simpa [gates] using hc' :
            c' = a ∨ c' ∈ gates (a + d) d (m + 1)) with h | h
        · exfalso; rw [h] at hcr'; linarith
        · exact huniq c' h hcl' hcr'

/-- **C1.**  For every well-formed container and query `r`:
`get_range r` raises exactly when `r < rmin` or `r ≥ rmax`; otherwise
it returns the sub-table (full keys kept) of the unique gate whose
half-open interval `[c - size/2, c + size/2)` contains `r`, which is
the first gate in ascending order whose right edge exceeds `r`.  In
particular `r` at a gate's lower bound selects that gate, and
`r = rmax` raises. -/
theorem get_range_spec (st : LidarState) (h : st.wellFormed) (r : ℚ) :
    ((r < st.rmin ∨ st.rmax ≤ r) → ∃ msg, st.get_range r = Except.error msg) ∧
    (st.rmin ≤ r → r < st.rmax →
      ∃ c, c ∈ st.rarray ∧
        st.rarray.find? (fun c => decide (r < c + st.range_gate_size / 2)) = some c ∧
        c - st.range_gate_size / 2 ≤ r ∧ r < c + st.range_gate_size / 2 ∧
        (∀ c' ∈ st.rarray,
          c' - st.range_gate_size / 2 ≤ r → r < c' + st.range_gate_size / 2 → c' = c) ∧
        st.get_range r = Except.ok (st.df.filter fun row => decide (row.1.1 = c))) := by
  obtain ⟨hd, ⟨a, n, hn, hra⟩, hmin, hmax⟩ := h
  constructor
  · intro hout
    unfold LidarState.get_range
    by_cases h1 : r < st.rmin
    · exact ⟨"Invalid range, r < rmin", by rw [if_pos h1]⟩
    · have h2 : st.rmax ≤ r := by tauto
      exact ⟨"Invalid range, r >= rmax", by rw [if_neg h1, if_pos h2]⟩
  · intro hr1 hr2
    obtain ⟨m, rfl⟩ : ∃ m, n = m + 2 := ⟨n - 2, by omega⟩
    have hhead : st.rarray.headD 0 = a := by rw [hra]; rfl
    have hlast : st.rarray.getLastD 0 = a + ((m : ℚ) + 1) * st.range_gate_size := by
      rw [hra]
      have := gates_getLastD st.range_gate_size (m + 1) a 0
      push_cast at this
      exact this
    have h1 : a - st.range_gate_size / 2 ≤ r := by
      rw [hmin, hhead] at hr1; linarith
    have h2 : r < a + ((m : ℕ) + 1 : ℕ) * st.range_gate_size + st.range_gate_size / 2 := by
      rw [hmax, hlast] at hr2; push_cast; linarith
    obtain ⟨c, hfind, hmem, hcl, hcr, huniq⟩ :=
      gates_find_spec st.range_gate_size r hd (m + 1) a h1 h2
    rw [← hra] at hfind hmem huniq
    refine ⟨c, hmem, hfind, hcl, hcr, huniq, ?_⟩
    unfold LidarState.get_range
    rw [if_neg (not_lt.mpr hr1), if_neg (not_le.mpr hr2)]
    by_cases hrmem : r ∈ st.rarray
    · rw [if_pos hrmem]
      have hrc : r = c := huniq r hrmem (by linarith) (by linarith)
      rw [hrc]
    · rw [if_neg hrmem, hfind]
      show (if c - st.range_gate_size / 2 ≤ r ∧ r < c + st.range_gate_size / 2 then
          Except.ok (st.df.filter fun row => decide (row.1.1 = c))
        else Except.error "AssertionError: r is not between r0 and r1") =
        Except.ok (st.df.filter fun row => decide (row.1.1 = c))
      rw [if_pos ⟨hcl, hcr⟩]

/-- A small concrete container: gates centered at 15 and 45 of size
30, hence `rmin = 0` and `rmax = 60`. -/
def sampleLidar : LidarState :=
  { df := [((15, 0, 2), some 1), ((45, 0, 2), some 2)]
    rarray := [15, 45]
    range_gate_size := 30
    rmin := 0
    rmax := 60 }

/-- The scan-type label `_check_data` prints. -/
inductive ScanType where
  | volumetric
  | vertical
  | RHI
  | PPI
deriving DecidableEq

/-- Shallow embedding of the coordinate-classification chain of
`LidarData._check_data` (lidar.py lines 102-118) over the index level
names.  Returns the label together with the `(RHI, PPI)` flags; the
`else` branch is the `raise IndexError` naming the axis set. -/
def classify_scan (names : List String) : Except String (ScanType × Bool × Bool) :=
  if "range" ∈ names ∧ "azimuth" ∈ names ∧ "elevation" ∈ names then
    Except.ok (ScanType.volumetric, false, false)
  else if "range" ∉ names then Except.ok (ScanType.vertical, false, false)
  else if "azimuth" ∉ names then Except.ok (ScanType.RHI, true, false)
  else if "elevation" ∉ names then Except.ok (ScanType.PPI, false, true)
  else Except.error "Unexpected index levels in dataframe"

/-- What a successful `_check_data` records on the object. -/
structure CheckResult where
  scan : ScanType
  RHI : Bool
  PPI : Bool
  range_gate_size : ℚ
  rmin : ℚ
  rmax : ℚ
deriving DecidableEq

/-- Shallow embedding of `LidarData._check_data` (lidar.py lines
100-127): classification, then the range bookkeeping on the FIRST
index level `rarray = df.index.levels[0]`, whatever axis that level
holds.  `rarray[1] - rarray[0]` raises `IndexError` when the level has
fewer than two values; `prior` models a pre-existing
`range_gate_size` attribute (the `hasattr` branch, lines 122-123),
which must equal the derived spacing. -/
def check_data (names : List String) (level0 : List ℚ) (prior : Option ℚ) :
    Except String CheckResult :=
  match classify_scan names with
  | Except.error e => Except.error e
  | Except.ok (s, rhi, ppi) =>
    match level0 with
    | r0 :: r1 :: _ =>
      let dr := r1 - r0
      match prior with
      | some g =>
        if g = dr then
          Except.ok ⟨s, rhi, ppi, g, r0 - g / 2, level0.getLastD 0 + g / 2⟩
        else Except.error "AssertionError: range_gate_size mismatch"
      | none => Except.ok ⟨s, rhi, ppi, dr, r0 - dr / 2, level0.getLastD 0 + dr / 2⟩
    | _ => Except.error "IndexError: index 1 is out of bounds"

/-- The classification chain never reaches its error branch: any index
with at least one of the three axes missing falls into the `vertical`,
`RHI` or `PPI` case, and an index with all three is `volumetric`. -/
theorem classify_scan_total (names : List String) :
    ∃ v, classify_scan names = Except.ok v := by
  unfold classify_scan
  by_cases h1 : "range" ∈ names ∧ "azimuth" ∈ names ∧ "elevation" ∈ names
  · exact ⟨_, by rw [if_pos h1]⟩
  · by_cases h2 : "range" ∉ names
    · exact ⟨_, by rw [if_neg h1, if_pos h2]⟩
    · by_cases h3 : "azimuth" ∉ names
      · exact ⟨_, by rw [if_neg h1, if_neg h2, if_pos h3]⟩
      · by_cases h4 : "elevation" ∉ names
        · exact ⟨_, by rw [if_neg h1, if_neg h2, if_neg h3, if_pos h4]⟩
        · exfalso
          push_neg at h2 h3 h4
          exact h1 ⟨h2, h3, h4⟩

/-- **C4.**  A key with only the range axis does NOT raise the
structural error the claim requires: the `elif` chain of `_check_data`
covers every axis combination, so `['range']` is classified as an RHI
scan with the RHI flag set, and the `raise IndexError` branch is
unreachable for every possible list of index names. -/
theorem classify_scan_only_range :
    classify_scan ["range"] = Except.ok (ScanType.RHI, true, false) ∧
    ∀ names, ∃ v, classify_scan names = Except.ok v :=
  ⟨rfl, classify_scan_total⟩

/-- **C10.**  Construction always derives the gate size, `rmin` and
`rmax` from the first two entries of the first index level, whatever
the index names are; consequently, whenever the first level holds
fewer than two values, `_check_data` fails with an out-of-bounds index
error — even for a valid axis combination. -/
theorem check_data_first_level (names : List String) (level0 : List ℚ) :
    (level0.length < 2 →
      check_data names level0 none =
        Except.error "IndexError: index 1 is out of bounds") ∧
    (∀ r0 r1 rest, level0 = r0 :: r1 :: rest →
      ∃ s rhi ppi, check_data names level0 none =
        Except.ok ⟨s, rhi, ppi, r1 - r0, r0 - (r1 - r0) / 2,
          (r0 :: r1 :: rest).getLastD 0 + (r1 - r0) / 2⟩) := by
  obtain ⟨⟨s, rhi, ppi⟩, hv⟩ := classify_scan_total names
  constructor
  · intro hlen
    rcases level0 with _ | ⟨r0, l⟩
    · simp [check_data, hv]
    · rcases l with _ | ⟨r1, rest⟩
      · simp [check_data, hv]
      · simp only [List.length_cons] at hlen
        omega
  · intro r0 r1 rest heq
    subst heq
    exact ⟨s, rhi, ppi, by simp [check_data, hv]⟩

/-- Witness for `check_data_first_level`: a vertical scan (a valid
axis combination, index names azimuth and elevation) whose first
level holds a single value fails with the out-of-bounds error. -/
theorem check_data_first_level_witness :
    check_data ["azimuth", "elevation"] [30] none =
      Except.error "IndexError: index 1 is out of bounds" :=
  (check_data_first_level ["azimuth", "elevation"] [30]).1 (by norm_num)

theorem sampleLidar_wellFormed : sampleLidar.wellFormed := by
  refine ⟨by norm_num [sampleLidar], ⟨15, 2, by norm_num, ?_⟩, ?_, ?_⟩
  · show sampleLidar.rarray = gates 15 sampleLidar.range_gate_size 2
    norm_num [sampleLidar, show ∀ x y : ℚ, gates x y 2 = [x, x + y] from fun _ _ => rfl]
  · norm_num [sampleLidar]
  · norm_num [sampleLidar]

/-- Witness for `get_range_spec` at the well-formed container
`sampleLidar` and the out-of-domain query `r = -1 < rmin`. -/
theorem get_range_spec_witness :
    ∃ msg, sampleLidar.get_range (-1) = Except.error msg :=
  (get_range_spec sampleLidar sampleLidar_wellFormed (-1)).1
    (Or.inl (by norm_num [sampleLidar]))

/-- The distinct values of a column in ascending order: pandas stores
a MultiIndex level as the deduplicated values of that level, in
ascending order for the sorted indexes the loaders build. -/
def sortedDistinct (l : List ℚ) : List ℚ := List.insertionSort (fun x y => x ≤ y) l.dedup

/-- A pandas MultiIndex: the level names and, per level position, the
column of per-row values of that level. -/
structure PdIndex where
  names : List String
  cols : List (List ℚ)

/-- `index.levels[i]`: the sorted distinct values of the level at
POSITION `i`; accessing a position beyond the number of levels raises
`IndexError`, modelled by `none`. -/
def PdIndex.level (ix : PdIndex) (i : ℕ) : Option (List ℚ) :=
  (ix.cols[i]?).map sortedDistinct

/-- `LidarData.r` (lidar.py lines 129-131): `self.df.index.levels[0]`. -/
def lidar_r (ix : PdIndex) : Option (List ℚ) := ix.level 0

/-- `LidarData.az` (lines 133-135): `self.df.index.levels[1]`. -/
def lidar_az (ix : PdIndex) : Option (List ℚ) := ix.level 1

/-- `LidarData.el` (lines 137-139): `self.df.index.levels[2]`. -/
def lidar_el (ix : PdIndex) : Option (List ℚ) := ix.level 2

/-- The index of an RHI scan: no azimuth level, so elevation sits at
position 1. -/
def rhiIndex : PdIndex := ⟨["range", "elevation"], [[45, 15], [10, 0]]⟩

/-- **C7 (counterexample).**  The accessors are positional, not
name-based: for an RHI index (range and elevation levels, no azimuth
axis) `az` returns the ELEVATION values — neither empty nor absent —
and `el` raises `IndexError` although the elevation axis is present. -/
theorem lidar_accessors_positional_counterexample :
    ("azimuth" ∉ rhiIndex.names ∧ lidar_az rhiIndex = some [0, 10] ∧
      lidar_az rhiIndex ≠ some [] ∧ lidar_az rhiIndex ≠ none) ∧
    ("elevation" ∈ rhiIndex.names ∧ lidar_el rhiIndex = none) := by
  refine ⟨⟨?_, rfl, ?_, ?_⟩, ⟨?_, rfl⟩⟩ <;> decide

/-- **C7 (amended).**  `r`, `az`, `el` return the first, second and
third POSITIONAL index levels.  For a canonically ordered 3-axis
(range, azimuth, elevation) index they expose each axis's distinct
values in ascending order without duplicates; when an axis is absent
the positions shift: for an RHI scan (range, elevation) `az` exposes
the elevation level and `el` fails out-of-bounds instead of being
empty or absent. -/
theorem lidar_accessors_amended (c0 c1 c2 : List ℚ) :
    (lidar_r ⟨["range", "azimuth", "elevation"], [c0, c1, c2]⟩ = some (sortedDistinct c0) ∧
      lidar_az ⟨["range", "azimuth", "elevation"], [c0, c1, c2]⟩ = some (sortedDistinct c1) ∧
      lidar_el ⟨["range", "azimuth", "elevation"], [c0, c1, c2]⟩ = some (sortedDistinct c2)) ∧
    (∀ l : List ℚ, (sortedDistinct l).Sorted (fun x y => x ≤ y) ∧
      (sortedDistinct l).Nodup ∧ (sortedDistinct l).toFinset = l.toFinset) ∧
    (∀ d0 d1 : List ℚ,
      lidar_az ⟨["range", "elevation"], [d0, d1]⟩ = some (sortedDistinct d1) ∧
      lidar_el ⟨["range", "elevation"], [d0, d1]⟩ = none) := by
  refine ⟨⟨rfl, rfl, rfl⟩, ?_, fun d0 d1 => ⟨rfl, rfl⟩⟩
  intro l
  refine ⟨List.sorted_insertionSort _ l.dedup, ?_, ?_⟩
  · exact (List.perm_insertionSort _ l.dedup).nodup_iff.mpr l.nodup_dedup
  · ext x
    simp only [List.mem_toFinset, sortedDistinct]
    exact Iff.trans ((List.perm_insertionSort _ l.dedup).mem_iff) List.mem_dedup

/-- A row of the PEIWEE loader's table: the `(range, azimuth,
elevation)` key and the payload columns (`intensity` plus the data
column); `none` is NaN. -/
structure PRow where
  key : ℚ × ℚ × ℚ
  intensity : Option ℚ
  value : Option ℚ
deriving DecidableEq

/-- `self.df.loc[mask, :] = np.nan`: a masked row keeps its index key
but every payload column becomes NaN. -/
def maskRow (row : PRow) : PRow := { row with intensity := none, value := none }

/-- Mask (not delete) the rows satisfying `p`. -/
def maskIf (p : PRow → Bool) (df : List PRow) : List PRow :=
  df.map fun row => if p row then maskRow row else row

/-- Shallow embedding of `_filter_by_intensity` (lidar.py lines
303-307): mask rows below `min_intensity`, then — reading the
already-updated table — mask rows above `max_intensity`.  A NaN
intensity compares false in numpy, hence `none` rows never match. -/
def filter_by_intensity (df : List PRow) (mi ma : Option ℚ) : List PRow :=
  let df1 := match mi with
    | none => df
    | some m =>
      maskIf (fun row => match row.intensity with
        | some v => decide (v < m)
        | none => false) df
  match ma with
  | none => df1
  | some M =>
    maskIf (fun row => match row.intensity with
      | some v => decide (M < v)
      | none => false) df1

/-- Python truthiness of an argument that is either `None` (falsy) or
a 2-tuple (always truthy, even `(None, None)`). -/
def truthy {α : Type} : Option α → Bool
  | none => false
  | some _ => true

/-- Shallow embedding of `_filter_by_range` (lidar.py lines 283-301).
The leading `assert range_gates or ranges` fails when both arguments
are `None`.  `range_gates` bounds index into the per-row range values
`allranges` (computed once from the index, which masking never
changes); `ranges` bounds compare against the range key directly. -/
def filter_by_range (df : List PRow) (range_gates : Option (Option ℕ × Option ℕ))
    (ranges : Option (Option ℚ × Option ℚ)) : Except String (List PRow) :=
  if truthy range_gates = false ∧ truthy ranges = false then
    Except.error "Specify range_gates or ranges"
  else
    match range_gates with
    | some (g0, g1) =>
      let allranges := df.map fun row => row.key.1
      let step1 : Except String (List PRow) :=
        match g0 with
        | none => Except.ok df
        | some i =>
          match allranges[i]? with
          | none => Except.error "IndexError: range gate index out of bounds"
          | some minrange => Except.ok (maskIf (fun row => decide (row.key.1 ≤ minrange)) df)
      match step1 with
      | Except.error e => Except.error e
      | Except.ok df1 =>
        match g1 with
        | none => Except.ok df1
        | some i =>
          match allranges[i]? with
          | none => Except.error "IndexError: range gate index out of bounds"
          | some maxrange => Except.ok (maskIf (fun row => decide (maxrange ≤ row.key.1)) df1)
    | none =>
      match ranges with
      | some (lo, hi) =>
        let df1 := match lo with
          | none => df
          | some l => maskIf (fun row => decide (row.key.1 < l)) df
        let df2 := match hi with
          | none => df1
          | some h => maskIf (fun row => decide (h < row.key.1)) df1
        Except.ok df2
      | none => Except.error "Specify range_gates or ranges"

/-- Shallow embedding of the `GalionCornellPEIWEE` constructor after
`_load` (lidar.py lines 261-269): `LidarData.__init__` validates via
`_check_data` — `_load` sets the index to (range, azimuth, elevation),
so `levels[0]` is the sorted distinct range values — and then the two
filters run unconditionally. -/
def peiwee_init (df : List PRow) (range_gates : Option (Option ℕ × Option ℕ))
    (ranges : Option (Option ℚ × Option ℚ)) (intensity_range : Option ℚ × Option ℚ) :
    Except String (List PRow) :=
  match check_data ["range", "azimuth", "elevation"]
      (sortedDistinct (df.map fun row => row.key.1)) none with
  | Except.error e => Except.error e
  | Except.ok _ =>
    match filter_by_range df range_gates ranges with
    | Except.error e => Except.error e
    | Except.ok df1 => Except.ok (filter_by_intensity df1 intensity_range.1 intensity_range.2)

/-- The intensity of a row is strictly below the (optional) lower
bound. -/
def belowMin (mi : Option ℚ) (i : Option ℚ) : Bool :=
  match mi with
  | none => false
  | some m =>
    match i with
    | none => false
    | some v => decide (v < m)

/-- The intensity of a row is strictly above the (optional) upper
bound. -/
def aboveMax (ma : Option ℚ) (i : Option ℚ) : Bool :=
  match ma with
  | none => false
  | some M =>
    match i with
    | none => false
    | some v => decide (M < v)

/-- **C9.**  Intensity filtering masks exactly the rows whose original
intensity lies below `min_intensity` or above `max_intensity` —
setting every payload field of those rows to missing and leaving every
other row unchanged — and the table's index (shape and key values) is
identical to before the filter. -/
theorem filter_by_intensity_spec (df : List PRow) (mi ma : Option ℚ) :
    (filter_by_intensity df mi ma).map (fun row => row.key) =
      df.map (fun row => row.key) ∧
    (filter_by_intensity df mi ma).length = df.length ∧
    filter_by_intensity df mi ma = df.map fun row =>
      if belowMin mi row.intensity || aboveMax ma row.intensity then maskRow row
      else row := by
  have hmain : filter_by_intensity df mi ma = df.map fun row =>
      if belowMin mi row.intensity || aboveMax ma row.intensity then maskRow row
      else row := by
    rcases mi with _ | m <;> rcases ma with _ | M
    · show df = _
      have hg : (fun row : PRow =>
          if belowMin none row.intensity || aboveMax none row.intensity then maskRow row
          else row) = fun row => row := funext fun r => rfl
      rw [hg, List.map_id']
    · show maskIf _ df = _
      unfold maskIf
      refine congrArg (fun f => List.map f df) (funext fun r => ?_)
      cases hv : r.intensity with
      | none => simp [belowMin, aboveMax, hv]
      | some v => simp [belowMin, aboveMax, hv]
    · show maskIf _ df = _
      unfold maskIf
      refine congrArg (fun f => List.map f df) (funext fun r => ?_)
      cases hv : r.intensity with
      | none => simp [belowMin, aboveMax, hv]
      | some v => simp [belowMin, aboveMax, hv]
    · show maskIf _ (maskIf _ df) = _
      unfold maskIf
      rw [List.map_map]
      refine congrArg (fun f => List.map f df) (funext fun r => ?_)
      cases hv : r.intensity with
      | none => simp [Function.comp, belowMin, aboveMax, hv]
      | some v =>
        by_cases hm : v < m
        · simp [Function.comp, belowMin, aboveMax, hv, hm, maskRow]
        · by_cases hM : M < v
          · simp [Function.comp, belowMin, aboveMax, hv, hm, hM]
          · simp [Function.comp, belowMin, aboveMax, hv, hm, hM]
  refine ⟨?_, ?_, hmain⟩
  · rw [hmain, List.map_map]
    refine congrArg (fun f => List.map f df) (funext fun r => ?_)
    show (if belowMin mi r.intensity || aboveMax ma r.intensity then maskRow r else r).key
      = r.key
    split <;> rfl
  · rw [hmain, List.length_map]

/-- A concrete PEIWEE table with two range gates (centers 15 and 45). -/
def peiweeTable : List PRow :=
  [⟨(15, 0, 2), some 10, some 1⟩, ⟨(45, 0, 2), some 20, some 2⟩]

/-- **C8 (counterexample).**  Constructing the loader with every
post-construction filter left unspecified does NOT succeed: the
unconditional `_filter_by_range` call asserts that `range_gates` or
`ranges` is given, so the all-default construction raises. -/
theorem peiwee_init_all_defaults_fails :
    peiwee_init peiweeTable none none (none, none) =
      Except.error "Specify range_gates or ranges" := rfl

/-- **C8 (amended).**  The intensity window (each bound independently)
is optional, and each of the two range windows is individually
optional, but at least one of `range_gates`/`ranges` must be passed
(possibly as the truthy no-op placeholder `(None, None)`):
construction with both left unspecified raises `'Specify range_gates
or ranges'`, whatever the intensity bounds. -/
theorem peiwee_init_filters_amended (mi ma : Option ℚ) :
    peiwee_init peiweeTable none none (mi, ma) =
      Except.error "Specify range_gates or ranges" ∧
    peiwee_init peiweeTable (some (none, none)) none (mi, ma) =
      Except.ok (filter_by_intensity peiweeTable mi ma) ∧
    peiwee_init peiweeTable none (some (none, none)) (mi, ma) =
      Except.ok (filter_by_intensity peiweeTable mi ma) :=
  ⟨rfl, rfl, rfl⟩
